import Mathlib

/-!
Verification development for the HTTP response caching engine described in
spec.md.  The repository under test contains only the Go test-suite and the
container harness; the caching engine itself (the reverse proxy) is an
external collaborator.  Every definition below is therefore modelled from
the specification text (sections are cited in the doc comments), and the
concrete scenarios of the test-suite are replayed against this model.
All durations are in milliseconds; Cache-Control directive values are in
seconds, converted at the point of use.
-/

namespace HttpCache

/-- Modelled from the spec: a single Cache-Control directive as consumed by
the Freshness Calculator (section 6: max-age, s-maxage, no-store, no-cache,
private, stale-while-revalidate).  A directive that requires a duration but
carries none (or a malformed one) is represented with value none. -/
structure Directive where
  name : String
  value : Option Nat := none
deriving DecidableEq, Repr

/-- Modelled from the spec: the parsed Cache-Control header of a backend
response, a list of directives. -/
abbrev CacheControl := List Directive

/-- Whether a directive with the given name is present at all. -/
def hasDir (cc : CacheControl) (n : String) : Bool :=
  cc.any (fun d => d.name == n)

/-- The duration value of the named directive, when present with a valid
duration.  A directive present without a valid duration yields none, the
same as an absent directive (spec section 4.2 rule 5: malformed or missing
duration is invalid and ignored, treated as absent). -/
def dirVal (cc : CacheControl) (n : String) : Option Nat :=
  match cc.find? (fun d => d.name == n) with
  | some d => d.value
  | none => none

/-- Modelled from the spec (section 3): cacheability of a backend response. -/
inductive Cacheability
  | cacheable
  | hitForMiss
  | uncacheable
deriving DecidableEq, Repr

/-- Modelled from the spec (section 6, configuration surface): default TTL,
default grace and default keep, in milliseconds. -/
structure Config where
  defaultTtl : Nat := 0
  defaultGrace : Nat := 0
  defaultKeep : Nat := 0
deriving DecidableEq, Repr

/-- Modelled from the spec (sections 3 and 6): the parts of a backend
response the engine consumes.  expiresAfter stands for the precomputed
difference Expires minus Date in milliseconds, xResponse stands for the
representative non-validator response header used by the test-suite. -/
structure BackendResponse where
  status : Nat
  cacheControl : CacheControl := []
  expiresAfter : Option Nat := none
  etag : Option String := none
  lastModified : Option String := none
  xResponse : String := ""
  body : String := ""
deriving DecidableEq, Repr

/-- Modelled from the spec (section 4.6): the mutations the backend-response
Policy Hook may apply to the computed freshness fields, and whether it marks
the response explicitly uncacheable. -/
structure HookOverrides where
  ttl : Option Nat := none
  grace : Option Nat := none
  markUncacheable : Bool := false
deriving DecidableEq, Repr

/-- Modelled from the spec (section 4.2): output of the Freshness
Calculator. -/
structure Freshness where
  ttl : Nat
  grace : Nat
  keep : Nat
  cacheability : Cacheability
deriving DecidableEq, Repr

/-- Modelled from the spec: statuses for which the configured default TTL
applies when the response carries no cache-related headers.  Section 8
requires that a 500 response with no Cache-Control is never cached while
the 404 test caches such a response under the default TTL, so the default
TTL heuristic is restricted to the statuses the engine caches by default. -/
def cacheableByDefaultStatus (s : Nat) : Bool :=
  s == 200 || s == 203 || s == 204 || s == 300 || s == 301 || s == 304 ||
  s == 404 || s == 410 || s == 414

/-- Modelled from the spec (section 4.2 rules 3 and 4): freshness lifetime
from the response headers alone, in milliseconds.  private and no-cache
force ttl 0; otherwise s-maxage takes priority over max-age, then Expires
minus Date, then the configured default TTL for default-cacheable
statuses. -/
def headerTtl (r : BackendResponse) (cfg : Config) : Nat :=
  if hasDir r.cacheControl "private" || hasDir r.cacheControl "no-cache" then 0
  else
    match dirVal r.cacheControl "s-maxage" with
    | some n => n * 1000
    | none =>
      match dirVal r.cacheControl "max-age" with
      | some n => n * 1000
      | none =>
        match r.expiresAfter with
        | some n => n
        | none => if cacheableByDefaultStatus r.status then cfg.defaultTtl else 0

/-- Modelled from the spec (section 4.2 rule 5): grace from the response
headers, in milliseconds.  A valid stale-while-revalidate duration wins
(zero included); an absent or invalid directive falls back to the
configured default grace. -/
def headerGrace (r : BackendResponse) (cfg : Config) : Nat :=
  match dirVal r.cacheControl "stale-while-revalidate" with
  | some n => n * 1000
  | none => cfg.defaultGrace

/-- Modelled from the spec (section 4.2 rule 7): the grace the response or
the backend-response hook itself carries, as opposed to the configured
default grace; grace-only retention applies only when such a grace is
present. -/
def presentGrace (r : BackendResponse) (hook : HookOverrides) : Option Nat :=
  match hook.grace with
  | some g => some g
  | none =>
    match dirVal r.cacheControl "stale-while-revalidate" with
    | some n => some (n * 1000)
    | none => none

/-- Modelled from the spec (section 4.2 rule 7): the minimal nonzero ttl the
policy sets internally so that a grace-only object is retained. -/
def graceOnlyRetentionTtl : Nat := 1

/-- Modelled from the spec (section 3): the short TTL of a HitForMiss marker
object, in milliseconds. -/
def markerTtl : Nat := 120000

/-- Modelled from the spec (section 4.2): the Freshness Calculator.  The
hook overrides of the backend-response phase replace the header-derived ttl
and grace; the request-scoped grace cap set in the receive phase caps the
effective grace (rule 6); the request-scoped ttl override is deliberately
ignored, since TTL is never capped by a request-scoped override (rule 6).
Rule 7 retains grace-only objects by the minimal nonzero ttl.  Cacheability
is HitForMiss exactly for explicit no-store or an explicit hook marking
(rule 1 and the output clause); a response with neither ttl nor retainable
grace is Uncacheable. -/
def computeFreshness (r : BackendResponse) (hook : HookOverrides)
    (reqGraceCap : Option Nat) (_reqTtlCap : Option Nat) (cfg : Config) :
    Freshness :=
  let ttl0 :=
    match hook.ttl with
    | some t => t
    | none => headerTtl r cfg
  let grace0 :=
    match hook.grace with
    | some g => g
    | none => headerGrace r cfg
  let grace :=
    match reqGraceCap with
    | some c => min grace0 c
    | none => grace0
  let restricted :=
    hasDir r.cacheControl "private" || hasDir r.cacheControl "no-store" ||
    hasDir r.cacheControl "no-cache"
  let graceOnly :=
    ttl0 == 0 && !restricted &&
    (match presentGrace r hook with
     | some g => g > 0
     | none => false)
  let ttl := if graceOnly then graceOnlyRetentionTtl else ttl0
  let cacheability :=
    if hasDir r.cacheControl "no-store" || hook.markUncacheable then
      Cacheability.hitForMiss
    else if ttl == 0 then Cacheability.uncacheable
    else Cacheability.cacheable
  { ttl := ttl, grace := grace, keep := cfg.defaultKeep,
    cacheability := cacheability }

/-- Modelled from the spec (section 3): a sealed cache object. -/
structure CacheObject where
  status : Nat
  xResponse : String
  body : String
  etag : Option String := none
  lastModified : Option String := none
  insertedAt : Nat
  ttl : Nat
  grace : Nat
  keep : Nat
  hitForMiss : Bool := false
deriving DecidableEq, Repr

/-- Modelled from the spec (section 4.5): the full cache object created from
a cacheable backend response at insertion time. -/
def mkObject (r : BackendResponse) (f : Freshness) (now : Nat) : CacheObject :=
  { status := r.status, xResponse := r.xResponse, body := r.body,
    etag := r.etag, lastModified := r.lastModified,
    insertedAt := now, ttl := f.ttl, grace := f.grace, keep := f.keep }

/-- Modelled from the spec (section 3): the HitForMiss marker object stored
for an explicitly uncacheable response: empty body, short TTL. -/
def mkMarker (r : BackendResponse) (now : Nat) : CacheObject :=
  { status := r.status, xResponse := "", body := "",
    insertedAt := now, ttl := markerTtl, grace := 0, keep := 0,
    hitForMiss := true }

/-- Modelled from the spec (sections 3 and 4.3): what Insert publishes for a
fetched response: the full object when cacheable, else a HitForMiss marker
(an Uncacheable response is never stored as a full object but materializes
as a marker to govern subsequent misses). -/
def storeResult (r : BackendResponse) (f : Freshness) (now : Nat) :
    Option CacheObject :=
  match f.cacheability with
  | Cacheability.cacheable => some (mkObject r f now)
  | Cacheability.hitForMiss => some (mkMarker r now)
  | Cacheability.uncacheable => some (mkMarker r now)

/-- Modelled from the spec (section 4.3): the outcome of an Object Store
lookup. -/
inductive LookupResult
  | fresh
  | staleGrace
  | staleKeep
  | hitForMissMarker
  | miss
deriving DecidableEq, Repr

/-- Modelled from the spec (sections 4.3 and the glossary): classify the
stored object at the given time.  Fresh within ttl, servable-stale within
ttl+grace, revalidation basis within ttl+grace+keep, evicted afterwards; a
HitForMiss marker reports its own class while it lives. -/
def lookup (store : Option CacheObject) (now : Nat) : LookupResult :=
  match store with
  | none => LookupResult.miss
  | some o =>
    if o.hitForMiss then
      if now - o.insertedAt < o.ttl then LookupResult.hitForMissMarker
      else LookupResult.miss
    else
      let age := now - o.insertedAt
      if age < o.ttl then LookupResult.fresh
      else if age < o.ttl + o.grace then LookupResult.staleGrace
      else if age < o.ttl + o.grace + o.keep then LookupResult.staleKeep
      else LookupResult.miss

/-- Modelled from the spec (section 4.5): whether the stored object carries
a validator and the Revalidator therefore sends a conditional request. -/
def wantsConditional (o : CacheObject) : Bool :=
  o.etag.isSome || o.lastModified.isSome

/-- Modelled from the spec (section 4.5): the validator value the
Revalidator attaches to a conditional backend request, the ETag for
If-None-Match taking priority over Last-Modified for If-Modified-Since. -/
def revalidationValidator (o : CacheObject) : Option String :=
  match o.etag with
  | some e => some e
  | none => o.lastModified

/-- Modelled from the spec (section 2, data flow): the response returned to
the client. -/
structure ClientResponse where
  status : Nat
  xResponse : String
  body : String
deriving DecidableEq, Repr

/-- The client response formatted from a stored cache object. -/
def objResponse (o : CacheObject) : ClientResponse :=
  { status := o.status, xResponse := o.xResponse, body := o.body }

/-- The client response formatted from a backend response delivered
through. -/
def backendClientResponse (r : BackendResponse) : ClientResponse :=
  { status := r.status, xResponse := r.xResponse, body := r.body }

/-- Modelled from the spec (section 4.7): the synthetic default response for
a Backend Fetch Error: a 503 with the default empty body. -/
def syntheticBackendError : ClientResponse :=
  { status := 503, xResponse := "", body := "" }

/-- Modelled from the spec (section 2): what kind of backend fetch a request
triggered: none (hit), an asynchronous background fetch (stale within
grace), or a synchronous client-blocking fetch. -/
inductive FetchAction
  | noFetch
  | bgFetch
  | syncFetch
deriving DecidableEq, Repr

/-- Modelled from the spec (section 4.5): process the backend response of a
synchronous fetch.  A 304 for a conditional request extends the stored
object: the body and the validators are retained, the freshness window is
recomputed from the 304 metadata, the other headers are refreshed from the
304 response, and the client sees the stored status with the retained body.
A 304 for a request that was not conditional is a protocol violation and is
treated as a Backend Fetch Error (section 4.7): the client receives the
synthetic 503.  Any other actually received status is a normal response and
is published per the Freshness Calculator. -/
def processSyncResponse (stored : Option CacheObject) (conditional : Bool)
    (r : BackendResponse) (hook : HookOverrides) (reqGraceCap : Option Nat)
    (reqTtlCap : Option Nat) (cfg : Config) (now : Nat) :
    ClientResponse × Option CacheObject :=
  if r.status == 304 then
    if conditional then
      match stored with
      | some o =>
        let f := computeFreshness r hook reqGraceCap reqTtlCap cfg
        let o2 : CacheObject :=
          { status := o.status, xResponse := r.xResponse, body := o.body,
            etag := o.etag, lastModified := o.lastModified,
            insertedAt := now, ttl := f.ttl, grace := f.grace,
            keep := f.keep }
        (objResponse o2, some o2)
      | none => (syntheticBackendError, stored)
    else
      (syntheticBackendError, stored)
  else
    let f := computeFreshness r hook reqGraceCap reqTtlCap cfg
    (backendClientResponse r, storeResult r f now)

/-- Modelled from the spec (section 4.6): the backend-response Policy Hook
decision for a background fetch result. -/
inductive BackendHookDecision
  | deliver
  | abandon
deriving DecidableEq, Repr

/-- Modelled from the spec (sections 4.5 and 5): merge the result of an
asynchronous background fetch into the Object Store.  On abandonment the
result is discarded entirely and the previously cached object remains
authoritative and unaffected; on deliver the result is published with
last-writer-wins semantics (a 304 for a conditional background fetch
extends the stored object as in the synchronous case). -/
def processBackgroundResponse (stored : Option CacheObject)
    (decision : BackendHookDecision) (conditional : Bool)
    (r : BackendResponse) (hook : HookOverrides) (reqGraceCap : Option Nat)
    (reqTtlCap : Option Nat) (cfg : Config) (now : Nat) :
    Option CacheObject :=
  match decision with
  | BackendHookDecision.abandon => stored
  | BackendHookDecision.deliver =>
    (processSyncResponse stored conditional r hook reqGraceCap reqTtlCap cfg
      now).2

/-- Modelled from the spec (section 6): the parts of a client request the
engine consumes.  The request Cache-Control directives are carried but, by
default, never influence the lookup decision. -/
structure ClientRequest where
  method : String := "GET"
  cacheControl : CacheControl := []
  hasAuthorization : Bool := false
  hasCookie : Bool := false
deriving DecidableEq, Repr

/-- Modelled from the spec (sections 4.1 and 4.2 rule 2): whether the
request is forced to Pass: a non-GET, non-HEAD method, or an Authorization
or Cookie header under the default policy. -/
def forcedPass (req : ClientRequest) : Bool :=
  !(req.method == "GET" || req.method == "HEAD") ||
  req.hasAuthorization || req.hasCookie

/-- Modelled from the spec (sections 2, 4.3 and 4.5): handle one client
request against the current store at the given time, with the given backend
behaviour.  A forced Pass forwards to the backend without touching the
store.  A Fresh object is a Hit with no backend fetch.  Stale-within-grace
serves the stale object immediately and triggers an asynchronous background
fetch (merged separately by processBackgroundResponse).  Stale-within-keep
blocks on a synchronous fetch, conditional when the object carries a
validator.  A HitForMiss marker and a Miss each block on their own
synchronous unconditional fetch. -/
def handleRequest (store : Option CacheObject) (req : ClientRequest)
    (now : Nat) (backend : BackendResponse) (hook : HookOverrides)
    (reqGraceCap : Option Nat) (reqTtlCap : Option Nat) (cfg : Config) :
    ClientResponse × Option CacheObject × FetchAction :=
  if forcedPass req then
    (backendClientResponse backend, store, FetchAction.syncFetch)
  else
    match store, lookup store now with
    | some o, LookupResult.fresh =>
      (objResponse o, store, FetchAction.noFetch)
    | some o, LookupResult.staleGrace =>
      (objResponse o, store, FetchAction.bgFetch)
    | some o, LookupResult.staleKeep =>
      let out := processSyncResponse store (wantsConditional o) backend hook
        reqGraceCap reqTtlCap cfg now
      (out.1, out.2, FetchAction.syncFetch)
    | _, _ =>
      let out := processSyncResponse store false backend hook reqGraceCap
        reqTtlCap cfg now
      (out.1, out.2, FetchAction.syncFetch)

end HttpCache

namespace HttpCache

/-- Modelled from the spec (section 4.4): the Request Coalescer decision for
a requester that found no usable object: against a live HitForMiss marker
every requester performs its own independent backend fetch; otherwise it
awaits an existing in-flight fetch and owns the fetch only when none is in
flight. -/
inductive CoalesceAction
  | awaitInFlight
  | ownFetch
deriving DecidableEq, Repr

/-- Modelled from the spec (section 4.4): the coalescing decision itself. -/
def coalesce (store : Option CacheObject) (now : Nat) (inFlight : Bool) :
    CoalesceAction :=
  match lookup store now with
  | LookupResult.hitForMissMarker => CoalesceAction.ownFetch
  | _ =>
    if inFlight then CoalesceAction.awaitInFlight else CoalesceAction.ownFetch

/-- Modelled from the spec (section 4.4): a requester that probes the store
at the given time: when the coalescer grants it its own fetch it completes
one backend latency later (and one backend fetch is counted); when it must
await the in-flight fetch it performs no fetch of its own.  The pair is
(completion or resumption time, whether an own backend fetch was made). -/
def requesterOutcome (store : Option CacheObject) (resumeAt : Nat)
    (inFlight : Bool) (latency : Nat) : Nat × Bool :=
  match coalesce store resumeAt inFlight with
  | CoalesceAction.ownFetch => (resumeAt + latency, true)
  | CoalesceAction.awaitInFlight => (resumeAt, false)

/-- Modelled from the spec (sections 4.4 and 8): the n-parallel-requests
scenario against an empty store and a backend of the given latency whose
responses are all explicitly uncacheable.  The first requester owns the
in-flight fetch and publishes the store result at one latency; the
remaining requesters find an in-flight fetch, subscribe to its completion,
resume at the publish time, re-probe the store against the published
HitForMiss marker and follow the coalescer decision taken there.  Returns
one (completion time, did an own backend fetch) pair per request. -/
def noStoreParallelOutcomes (n L : Nat) (r : BackendResponse) (cfg : Config) :
    List (Nat × Bool) :=
  match n with
  | 0 => []
  | k + 1 =>
    let owner := requesterOutcome none 0 false L
    let published := storeResult r (computeFreshness r {} none none cfg)
      owner.1
    let waiter :=
      match coalesce none 0 true with
      | CoalesceAction.ownFetch => requesterOutcome none 0 false L
      | CoalesceAction.awaitInFlight => requesterOutcome published owner.1
          true L
    owner :: List.replicate k waiter

/-- The plain GET request of the test-suite: no cache directives, no
Authorization, no Cookie. -/
def getReq : ClientRequest := {}

/-- A 200 backend response carrying Cache-Control max-age=N, as in
TestCacheControlMaxAge1. -/
def maxAgeResponse (N : Nat) (x : String) : BackendResponse :=
  { status := 200, cacheControl := [Directive.mk "max-age" (some N)],
    xResponse := x }

/-- A 200 backend response with no cache-related headers, as in
TestNoCacheControl. -/
def plainResponse (x : String) : BackendResponse :=
  { status := 200, xResponse := x }

/-- A 200 backend response carrying Cache-Control max-age=m,
stale-while-revalidate=s, as in TestStaleWhileRevalidate. -/
def swrResponse (m s : Nat) (x : String) : BackendResponse :=
  { status := 200,
    cacheControl := [Directive.mk "max-age" (some m),
      Directive.mk "stale-while-revalidate" (some s)],
    xResponse := x }

/-- A configuration with only a default TTL, as started by the tests with
the ttl flag. -/
def ttlConfig (d : Nat) : Config := { defaultTtl := d }

end HttpCache

namespace HttpCache

/-- C1: for a cacheable backend response with Cache-Control max-age=N and no
grace (and, for a response with no cache-related headers, the configured
default TTL D in place of N), a client GET at time t < N after insertion is
served the cached object with no backend fetch (a Hit), and a request at
t2 > N is a Miss that blocks on a synchronous backend fetch returning the
new backend response.  Times are in milliseconds against the directive's
N seconds. -/
theorem c1_maxAge_and_default_ttl_hit_then_miss
    (N D t t2 u u2 : Nat) (x y z : String)
    (hN : 0 < N) (ht : t < N * 1000) (ht2 : N * 1000 < t2)
    (hD : 0 < D) (hu : u < D) (hu2 : D < u2) :
    (handleRequest
        ((handleRequest none getReq 0 (maxAgeResponse N x) {} none none
          {}).2.1) getReq t (maxAgeResponse N y) {} none none {} =
      ({ status := 200, xResponse := x, body := "" },
       (handleRequest none getReq 0 (maxAgeResponse N x) {} none none {}).2.1,
       FetchAction.noFetch) ∧
     (handleRequest
        ((handleRequest none getReq 0 (maxAgeResponse N x) {} none none
          {}).2.1) getReq t2 (maxAgeResponse N z) {} none none {}).1 =
      { status := 200, xResponse := z, body := "" } ∧
     (handleRequest
        ((handleRequest none getReq 0 (maxAgeResponse N x) {} none none
          {}).2.1) getReq t2 (maxAgeResponse N z) {} none none {}).2.2 =
      FetchAction.syncFetch) ∧
    (handleRequest
        ((handleRequest none getReq 0 (plainResponse x) {} none none
          (ttlConfig D)).2.1) getReq u (plainResponse y) {} none none
        (ttlConfig D) =
      ({ status := 200, xResponse := x, body := "" },
       (handleRequest none getReq 0 (plainResponse x) {} none none
         (ttlConfig D)).2.1,
       FetchAction.noFetch) ∧
     (handleRequest
        ((handleRequest none getReq 0 (plainResponse x) {} none none
          (ttlConfig D)).2.1) getReq u2 (plainResponse z) {} none none
        (ttlConfig D)).1 =
      { status := 200, xResponse := z, body := "" } ∧
     (handleRequest
        ((handleRequest none getReq 0 (plainResponse x) {} none none
          (ttlConfig D)).2.1) getReq u2 (plainResponse z) {} none none
        (ttlConfig D)).2.2 = FetchAction.syncFetch) := by
  have hzN : N * 1000 ≠ 0 := by omega
  have hzD : D ≠ 0 := by omega
  refine ⟨⟨?_, ?_, ?_⟩, ?_, ?_, ?_⟩ <;>
    simp [handleRequest, forcedPass, getReq, lookup, processSyncResponse,
      computeFreshness, headerTtl, headerGrace, presentGrace, hasDir, dirVal,
      storeResult, mkObject, mkMarker, objResponse, backendClientResponse,
      cacheableByDefaultStatus, maxAgeResponse, plainResponse, ttlConfig,
      hzN, hzD, ht, hu,
      Nat.not_lt.mpr (Nat.le_of_lt ht2), Nat.not_lt.mpr (Nat.le_of_lt hu2)]

/-- Witness for C1 at the concrete inputs of TestCacheControlMaxAge1 and
TestNoCacheControl: max-age=1 with requests at 500 ms and 1100 ms, and a
1000 ms default TTL with requests at 500 ms and 1100 ms. -/
theorem c1_maxAge_and_default_ttl_hit_then_miss_witness :
    (handleRequest
        ((handleRequest none getReq 0 (maxAgeResponse 1 "foo") {} none none
          {}).2.1) getReq 500 (maxAgeResponse 1 "bar") {} none none {} =
      ({ status := 200, xResponse := "foo", body := "" },
       (handleRequest none getReq 0 (maxAgeResponse 1 "foo") {} none none
         {}).2.1,
       FetchAction.noFetch) ∧
     (handleRequest
        ((handleRequest none getReq 0 (maxAgeResponse 1 "foo") {} none none
          {}).2.1) getReq 1100 (maxAgeResponse 1 "baz") {} none none {}).1 =
      { status := 200, xResponse := "baz", body := "" } ∧
     (handleRequest
        ((handleRequest none getReq 0 (maxAgeResponse 1 "foo") {} none none
          {}).2.1) getReq 1100 (maxAgeResponse 1 "baz") {} none none
        {}).2.2 = FetchAction.syncFetch) ∧
    (handleRequest
        ((handleRequest none getReq 0 (plainResponse "foo") {} none none
          (ttlConfig 1000)).2.1) getReq 500 (plainResponse "bar") {} none
        none (ttlConfig 1000) =
      ({ status := 200, xResponse := "foo", body := "" },
       (handleRequest none getReq 0 (plainResponse "foo") {} none none
         (ttlConfig 1000)).2.1,
       FetchAction.noFetch) ∧
     (handleRequest
        ((handleRequest none getReq 0 (plainResponse "foo") {} none none
          (ttlConfig 1000)).2.1) getReq 1100 (plainResponse "baz") {} none
        none (ttlConfig 1000)).1 =
      { status := 200, xResponse := "baz", body := "" } ∧
     (handleRequest
        ((handleRequest none getReq 0 (plainResponse "foo") {} none none
          (ttlConfig 1000)).2.1) getReq 1100 (plainResponse "baz") {} none
        none (ttlConfig 1000)).2.2 = FetchAction.syncFetch) :=
  c1_maxAge_and_default_ttl_hit_then_miss 1 1000 500 1100 500 1100
    "foo" "bar" "baz" (by decide) (by decide) (by decide) (by decide)
    (by decide) (by decide)

end HttpCache

namespace HttpCache

/-- C2: for an object cached from a response with Cache-Control max-age=1,
stale-while-revalidate=10, a request at time t with 1 s < t < 11 s after
insertion is answered immediately with the stale cached object while only a
single asynchronous background fetch is triggered (the sub-100 ms bound of
the test is the absence of any client-blocking backend fetch); once the
background fetch's result is merged, a later request within the refreshed
TTL is served the background fetch's response; and a request at t2 > 11 s
blocks on a synchronous backend fetch.  Times in milliseconds. -/
theorem c2_stale_while_revalidate_async_then_sync
    (t t3 t2 : Nat) (x y z w : String)
    (ht1 : 1000 < t) (ht11 : t < 11000)
    (ht3 : t ≤ t3) (ht3f : t3 < t + 1000) (ht2 : 11000 < t2) :
    (handleRequest
        ((handleRequest none getReq 0 (swrResponse 1 10 x) {} none none
          {}).2.1) getReq t (swrResponse 1 10 y) {} none none {} =
      ({ status := 200, xResponse := x, body := "" },
       (handleRequest none getReq 0 (swrResponse 1 10 x) {} none none
         {}).2.1,
       FetchAction.bgFetch)) ∧
    (handleRequest
        (processBackgroundResponse
          ((handleRequest none getReq 0 (swrResponse 1 10 x) {} none none
            {}).2.1) BackendHookDecision.deliver false (swrResponse 1 10 y)
          {} none none {} t) getReq t3 (swrResponse 1 10 z) {} none none
        {} =
      ({ status := 200, xResponse := y, body := "" },
       processBackgroundResponse
         ((handleRequest none getReq 0 (swrResponse 1 10 x) {} none none
           {}).2.1) BackendHookDecision.deliver false (swrResponse 1 10 y)
         {} none none {} t,
       FetchAction.noFetch)) ∧
    (handleRequest
        ((handleRequest none getReq 0 (swrResponse 1 10 x) {} none none
          {}).2.1) getReq t2 (swrResponse 1 10 w) {} none none {}).1 =
      { status := 200, xResponse := w, body := "" } ∧
    (handleRequest
        ((handleRequest none getReq 0 (swrResponse 1 10 x) {} none none
          {}).2.1) getReq t2 (swrResponse 1 10 w) {} none none {}).2.2 =
      FetchAction.syncFetch := by
  have hfr : ¬t < 1000 := by omega
  have hfr3 : t3 - t < 1000 := by omega
  have h2a : ¬t2 < 1000 := by omega
  have h2b : ¬t2 < 1000 + 10000 := by omega
  refine ⟨?_, ?_, ?_, ?_⟩ <;>
    simp [handleRequest, forcedPass, getReq, lookup, processSyncResponse,
      processBackgroundResponse, computeFreshness, headerTtl, headerGrace,
      presentGrace, hasDir, dirVal, storeResult, mkObject, mkMarker,
      objResponse, backendClientResponse, cacheableByDefaultStatus,
      swrResponse, ht11, hfr, hfr3, h2a, h2b]

/-- Witness for C2 at the concrete times of TestStaleWhileRevalidate:
stale request at 1100 ms served from cache with a background fetch, merge
observed at 1700 ms, synchronous fetch at 11500 ms. -/
theorem c2_stale_while_revalidate_async_then_sync_witness :
    (handleRequest
        ((handleRequest none getReq 0 (swrResponse 1 10 "1") {} none none
          {}).2.1) getReq 1100 (swrResponse 1 10 "2") {} none none {} =
      ({ status := 200, xResponse := "1", body := "" },
       (handleRequest none getReq 0 (swrResponse 1 10 "1") {} none none
         {}).2.1,
       FetchAction.bgFetch)) ∧
    (handleRequest
        (processBackgroundResponse
          ((handleRequest none getReq 0 (swrResponse 1 10 "1") {} none none
            {}).2.1) BackendHookDecision.deliver false (swrResponse 1 10 "2")
          {} none none {} 1100) getReq 1700 (swrResponse 1 10 "3") {} none
        none {} =
      ({ status := 200, xResponse := "2", body := "" },
       processBackgroundResponse
         ((handleRequest none getReq 0 (swrResponse 1 10 "1") {} none none
           {}).2.1) BackendHookDecision.deliver false (swrResponse 1 10 "2")
         {} none none {} 1100,
       FetchAction.noFetch)) ∧
    (handleRequest
        ((handleRequest none getReq 0 (swrResponse 1 10 "1") {} none none
          {}).2.1) getReq 11500 (swrResponse 1 10 "9") {} none none {}).1 =
      { status := 200, xResponse := "9", body := "" } ∧
    (handleRequest
        ((handleRequest none getReq 0 (swrResponse 1 10 "1") {} none none
          {}).2.1) getReq 11500 (swrResponse 1 10 "9") {} none none
        {}).2.2 = FetchAction.syncFetch :=
  c2_stale_while_revalidate_async_then_sync 1100 1700 11500 "1" "2" "3" "9"
    (by decide) (by decide) (by decide) (by decide) (by decide)

end HttpCache

namespace HttpCache

/-- A 200 backend response carrying only Cache-Control
stale-while-revalidate=g and no other cache-related header, as in
TestStaleWhileRevalidateWithoutTtlOrExpiresAndZeroDefaultTtl and in
TestSetBerespTtlToTinyValueAllowsForStaleWhileRevalidate. -/
def swrOnlyResponse (g : Nat) (x : String) : BackendResponse :=
  { status := 200,
    cacheControl := [Directive.mk "stale-while-revalidate" (some g)],
    xResponse := x }

/-- C3: a backend response whose ttl computes to 0 but that carries a
non-zero grace (here Cache-Control stale-while-revalidate=g with no
max-age, no Expires and a zero default TTL) and no private, no-store or
no-cache directive is still stored, with the minimal internal nonzero ttl
and the grace duration, and a request within that grace duration is served
the stored object as a stale hit with an asynchronous background fetch
rather than a synchronous one. -/
theorem c3_grace_only_retention_is_stored_and_stale_served
    (g t : Nat) (x y : String) (hg : 0 < g)
    (ht1 : graceOnlyRetentionTtl ≤ t) (ht : t < g * 1000) :
    (handleRequest none getReq 0 (swrOnlyResponse g x) {} none none
        {}).2.1 =
      some { status := 200, xResponse := x, body := "", insertedAt := 0,
             ttl := graceOnlyRetentionTtl, grace := g * 1000, keep := 0 } ∧
    handleRequest
        ((handleRequest none getReq 0 (swrOnlyResponse g x) {} none none
          {}).2.1) getReq t (swrOnlyResponse g y) {} none none {} =
      ({ status := 200, xResponse := x, body := "" },
       (handleRequest none getReq 0 (swrOnlyResponse g x) {} none none
         {}).2.1,
       FetchAction.bgFetch) := by
  have hgz : 0 < g * 1000 := by omega
  have h1 : ¬t < graceOnlyRetentionTtl := by omega
  have h2 : t < graceOnlyRetentionTtl + g * 1000 := by
    simp only [graceOnlyRetentionTtl]
    omega
  have ht0 : t ≠ 0 := by
    simp only [graceOnlyRetentionTtl] at ht1
    omega
  have h2n : t < 1 + g * 1000 := by omega
  constructor <;>
    simp [handleRequest, forcedPass, getReq, lookup, processSyncResponse,
      computeFreshness, headerTtl, headerGrace, presentGrace, hasDir, dirVal,
      storeResult, mkObject, mkMarker, objResponse, backendClientResponse,
      cacheableByDefaultStatus, swrOnlyResponse, graceOnlyRetentionTtl,
      hgz, h1, h2, ht0, h2n]

/-- Witness for C3 at the concrete inputs of the tests: a response with
stale-while-revalidate=1 only, probed at 500 ms. -/
theorem c3_grace_only_retention_is_stored_and_stale_served_witness :
    (handleRequest none getReq 0 (swrOnlyResponse 1 "foo") {} none none
        {}).2.1 =
      some { status := 200, xResponse := "foo", body := "", insertedAt := 0,
             ttl := graceOnlyRetentionTtl, grace := 1000, keep := 0 } ∧
    handleRequest
        ((handleRequest none getReq 0 (swrOnlyResponse 1 "foo") {} none none
          {}).2.1) getReq 500 (swrOnlyResponse 1 "bar") {} none none {} =
      ({ status := 200, xResponse := "foo", body := "" },
       (handleRequest none getReq 0 (swrOnlyResponse 1 "foo") {} none none
         {}).2.1,
       FetchAction.bgFetch) :=
  c3_grace_only_retention_is_stored_and_stale_served 1 500 "foo" "bar"
    (by decide) (by decide) (by decide)

end HttpCache

namespace HttpCache

/-- C4: the effective grace of an object fetched for a request whose
receive-phase hook set a request-scoped grace cap is min of grace and cap,
both when the grace was set by the backend-response hook and when it came
from the response's stale-while-revalidate directive; the TTL is never
capped by any request-scoped override: it is independent of the
request-scoped ttl value, and with a request-scoped ttl of 0 the object is
still stored and served with the hook-set TTL. -/
theorem c4_req_grace_caps_grace_never_ttl
    (r : BackendResponse) (hookTtl : Option Nat) (mu : Bool)
    (g c sw m T t : Nat) (x y : String) (tc tc2 gc : Option Nat)
    (hook : HookOverrides) (cfg : Config) (hT : 0 < T) (ht : t < T) :
    (computeFreshness r ⟨hookTtl, some g, mu⟩ (some c) tc cfg).grace =
      min g c ∧
    (computeFreshness (swrResponse m sw x) {} (some c) tc cfg).grace =
      min (sw * 1000) c ∧
    (computeFreshness r hook gc tc cfg).ttl =
      (computeFreshness r hook gc tc2 cfg).ttl ∧
    ((handleRequest none getReq 0 (plainResponse x)
        { ttl := some T } none (some 0) {}).2.1 =
      some { status := 200, xResponse := x, body := "", insertedAt := 0,
             ttl := T, grace := 0, keep := 0 } ∧
     handleRequest
        ((handleRequest none getReq 0 (plainResponse x)
          { ttl := some T } none (some 0) {}).2.1) getReq t
        (plainResponse y) { ttl := some T } none (some 0) {} =
      ({ status := 200, xResponse := x, body := "" },
       (handleRequest none getReq 0 (plainResponse x)
         { ttl := some T } none (some 0) {}).2.1,
       FetchAction.noFetch)) := by
  have hTz : T ≠ 0 := by omega
  refine ⟨?_, ?_, rfl, ?_, ?_⟩ <;>
    simp [handleRequest, forcedPass, getReq, lookup, processSyncResponse,
      computeFreshness, headerTtl, headerGrace, presentGrace, hasDir, dirVal,
      storeResult, mkObject, mkMarker, objResponse, backendClientResponse,
      cacheableByDefaultStatus, swrResponse, plainResponse, hTz, ht]

/-- Witness for C4 at the concrete inputs of the custom-VCL tests: a hook
grace of 10 s capped by a request grace of 1 s, a stale-while-revalidate of
10 s capped the same way, and a hook ttl of 10 s with a request-scoped ttl
of 0 probed at 100 ms. -/
theorem c4_req_grace_caps_grace_never_ttl_witness :
    (computeFreshness (plainResponse "foo") ⟨some 100, some 10000, false⟩
        (some 1000) none {}).grace = min 10000 1000 ∧
    (computeFreshness (swrResponse 1 10 "foo") {} (some 1000) none
        {}).grace = min (10 * 1000) 1000 ∧
    (computeFreshness (plainResponse "foo") { ttl := some 10000 } none
        (some 0) {}).ttl =
      (computeFreshness (plainResponse "foo") { ttl := some 10000 } none
        none {}).ttl ∧
    ((handleRequest none getReq 0 (plainResponse "foo")
        { ttl := some 10000 } none (some 0) {}).2.1 =
      some { status := 200, xResponse := "foo", body := "", insertedAt := 0,
             ttl := 10000, grace := 0, keep := 0 } ∧
     handleRequest
        ((handleRequest none getReq 0 (plainResponse "foo")
          { ttl := some 10000 } none (some 0) {}).2.1) getReq 100
        (plainResponse "bar") { ttl := some 10000 } none (some 0) {} =
      ({ status := 200, xResponse := "foo", body := "" },
       (handleRequest none getReq 0 (plainResponse "foo")
         { ttl := some 10000 } none (some 0) {}).2.1,
       FetchAction.noFetch)) :=
  c4_req_grace_caps_grace_never_ttl (plainResponse "foo") (some 100) false
    10000 1000 10 1 10000 100 "foo" "bar" none none (some 0)
    { ttl := some 10000 } {} (by decide) (by decide)

end HttpCache

namespace HttpCache

/-- A 200 backend response carrying Cache-Control s-maxage=1 together with
a stale-while-revalidate directive without a duration, as sent by the
backend in TestStaleWhileRevalidateWithoutDurationWhenNonZeroDefaultGrace. -/
def swrNoValueResponse (x : String) : BackendResponse :=
  { status := 200,
    cacheControl := [Directive.mk "s-maxage" (some 1),
      Directive.mk "stale-while-revalidate" none],
    xResponse := x }

/-- A configuration with only a default grace, as started by the tests with
the default_grace parameter. -/
def graceConfig (g : Nat) : Config := { defaultGrace := g }

/-- C5: a stale-while-revalidate directive without a duration is invalid
and ignored, treated as absent, so the configured default grace applies:
for any response carrying the directive with no valid duration the header
grace is the default grace, and in the concrete test scenario the stale
request at 1100 ms is served fast from cache with a background
revalidation; whereas stale-while-revalidate=0 means grace exactly 0, the
default grace does not apply, and the stale request at 1100 ms blocks on a
synchronous fetch. -/
theorem c5_swr_without_duration_vs_swr_zero
    (r r2 : BackendResponse) (cfg : Config) (x y : String)
    (hpres : hasDir r.cacheControl "stale-while-revalidate" = true)
    (hval : dirVal r.cacheControl "stale-while-revalidate" = none)
    (hz : dirVal r2.cacheControl "stale-while-revalidate" = some 0) :
    headerGrace r cfg = cfg.defaultGrace ∧
    headerGrace r2 cfg = 0 ∧
    (handleRequest
        ((handleRequest none getReq 0 (swrNoValueResponse x) {} none none
          (graceConfig 10000)).2.1) getReq 1100 (swrNoValueResponse y) {}
        none none (graceConfig 10000) =
      ({ status := 200, xResponse := x, body := "" },
       (handleRequest none getReq 0 (swrNoValueResponse x) {} none none
         (graceConfig 10000)).2.1,
       FetchAction.bgFetch)) ∧
    (handleRequest
        ((handleRequest none getReq 0 (swrResponse 1 0 x) {} none none
          (graceConfig 10000)).2.1) getReq 1100 (swrResponse 1 0 y) {}
        none none (graceConfig 10000)).1 =
      { status := 200, xResponse := y, body := "" } ∧
    (handleRequest
        ((handleRequest none getReq 0 (swrResponse 1 0 x) {} none none
          (graceConfig 10000)).2.1) getReq 1100 (swrResponse 1 0 y) {}
        none none (graceConfig 10000)).2.2 = FetchAction.syncFetch := by
  refine ⟨?_, ?_, ?_, ?_, ?_⟩
  · simp [headerGrace, hval]
  · simp [headerGrace, hz]
  all_goals
    simp [handleRequest, forcedPass, getReq, lookup, processSyncResponse,
      computeFreshness, headerTtl, headerGrace, presentGrace, hasDir, dirVal,
      storeResult, mkObject, mkMarker, objResponse, backendClientResponse,
      cacheableByDefaultStatus, swrResponse, swrNoValueResponse, graceConfig]

/-- Witness for C5 at the concrete inputs of the tests: the
swr-without-duration response against a 10 s default grace, and the
max-age=1, stale-while-revalidate=0 response against the same default
grace. -/
theorem c5_swr_without_duration_vs_swr_zero_witness :
    headerGrace (swrNoValueResponse "foo") (graceConfig 10000) =
      (graceConfig 10000).defaultGrace ∧
    headerGrace (swrResponse 1 0 "foo") (graceConfig 10000) = 0 ∧
    (handleRequest
        ((handleRequest none getReq 0 (swrNoValueResponse "foo") {} none
          none (graceConfig 10000)).2.1) getReq 1100
        (swrNoValueResponse "bar") {} none none (graceConfig 10000) =
      ({ status := 200, xResponse := "foo", body := "" },
       (handleRequest none getReq 0 (swrNoValueResponse "foo") {} none none
         (graceConfig 10000)).2.1,
       FetchAction.bgFetch)) ∧
    (handleRequest
        ((handleRequest none getReq 0 (swrResponse 1 0 "foo") {} none none
          (graceConfig 10000)).2.1) getReq 1100 (swrResponse 1 0 "bar") {}
        none none (graceConfig 10000)).1 =
      { status := 200, xResponse := "bar", body := "" } ∧
    (handleRequest
        ((handleRequest none getReq 0 (swrResponse 1 0 "foo") {} none none
          (graceConfig 10000)).2.1) getReq 1100 (swrResponse 1 0 "bar") {}
        none none (graceConfig 10000)).2.2 = FetchAction.syncFetch :=
  c5_swr_without_duration_vs_swr_zero (swrNoValueResponse "foo")
    (swrResponse 1 0 "foo") (graceConfig 10000) "foo" "bar"
    (by decide) (by decide) (by decide)

end HttpCache

namespace HttpCache

/-- The configuration of the conditional-revalidation tests: default TTL
1 s and default keep 5 s. -/
def keepConfig : Config := { defaultTtl := 1000, defaultKeep := 5000 }

/-- A 200 backend response with an ETag validator and a body, as in
TestConditionalRequestWhenRevalidatingWithEtag. -/
def etagResponse (e x b : String) : BackendResponse :=
  { status := 200, etag := some e, xResponse := x, body := b }

/-- The backend's 304 Not Modified answer to a conditional revalidation
carrying the same ETag and refreshed non-validator headers. -/
def etag304Response (e x : String) : BackendResponse :=
  { status := 304, etag := some e, xResponse := x }

/-- A 200 backend response with a Last-Modified validator and a body, as in
TestConditionalRequestWhenRevalidatingWithLastModified. -/
def lastModifiedResponse (l x b : String) : BackendResponse :=
  { status := 200, lastModified := some l, xResponse := x, body := b }

/-- The backend's 304 Not Modified answer to a conditional revalidation
carrying the same Last-Modified and refreshed non-validator headers. -/
def lastModified304Response (l x : String) : BackendResponse :=
  { status := 304, lastModified := some l, xResponse := x }

/-- C6: round-trip of conditional revalidation.  An object inserted with an
ETag (or Last-Modified) validator stores that validator, the Revalidator
presents it for the conditional request, and when the stale-but-within-keep
object is revalidated with a backend 304 the client receives status 200
with a body identical to the originally inserted body, the non-validator
headers are refreshed from the 304 response, and the freshness window is
extended so that an immediately following request is a cache hit serving
the same merged object. -/
theorem c6_conditional_revalidation_304_round_trip
    (e l x1 x2 b : String) :
    ((handleRequest none getReq 0 (etagResponse e x1 b) {} none none
        keepConfig).2.1 =
      some { status := 200, xResponse := x1, body := b, etag := some e,
             insertedAt := 0, ttl := 1000, grace := 0, keep := 5000 } ∧
     revalidationValidator
        { status := 200, xResponse := x1, body := b, etag := some e,
          insertedAt := 0, ttl := 1000, grace := 0, keep := 5000 } =
      some e ∧
     handleRequest
        ((handleRequest none getReq 0 (etagResponse e x1 b) {} none none
          keepConfig).2.1) getReq 1100 (etag304Response e x2) {} none none
        keepConfig =
      ({ status := 200, xResponse := x2, body := b },
       some { status := 200, xResponse := x2, body := b, etag := some e,
              insertedAt := 1100, ttl := 1000, grace := 0, keep := 5000 },
       FetchAction.syncFetch) ∧
     handleRequest
        (some { status := 200, xResponse := x2, body := b, etag := some e,
                insertedAt := 1100, ttl := 1000, grace := 0, keep := 5000 })
        getReq 1300 (etagResponse e x1 b) {} none none keepConfig =
      ({ status := 200, xResponse := x2, body := b },
       some { status := 200, xResponse := x2, body := b, etag := some e,
              insertedAt := 1100, ttl := 1000, grace := 0, keep := 5000 },
       FetchAction.noFetch)) ∧
    ((handleRequest none getReq 0 (lastModifiedResponse l x1 b) {} none
        none keepConfig).2.1 =
      some { status := 200, xResponse := x1, body := b,
             lastModified := some l, insertedAt := 0, ttl := 1000,
             grace := 0, keep := 5000 } ∧
     revalidationValidator
        { status := 200, xResponse := x1, body := b,
          lastModified := some l, insertedAt := 0, ttl := 1000, grace := 0,
          keep := 5000 } =
      some l ∧
     handleRequest
        ((handleRequest none getReq 0 (lastModifiedResponse l x1 b) {} none
          none keepConfig).2.1) getReq 1100 (lastModified304Response l x2)
        {} none none keepConfig =
      ({ status := 200, xResponse := x2, body := b },
       some { status := 200, xResponse := x2, body := b,
              lastModified := some l, insertedAt := 1100, ttl := 1000,
              grace := 0, keep := 5000 },
       FetchAction.syncFetch) ∧
     handleRequest
        (some { status := 200, xResponse := x2, body := b,
                lastModified := some l, insertedAt := 1100, ttl := 1000,
                grace := 0, keep := 5000 })
        getReq 1300 (lastModifiedResponse l x1 b) {} none none keepConfig =
      ({ status := 200, xResponse := x2, body := b },
       some { status := 200, xResponse := x2, body := b,
              lastModified := some l, insertedAt := 1100, ttl := 1000,
              grace := 0, keep := 5000 },
       FetchAction.noFetch)) := by
  refine ⟨⟨?_, ?_, ?_, ?_⟩, ?_, ?_, ?_, ?_⟩ <;>
    simp [handleRequest, forcedPass, getReq, lookup, processSyncResponse,
      computeFreshness, headerTtl, headerGrace, presentGrace, hasDir, dirVal,
      storeResult, mkObject, mkMarker, objResponse, backendClientResponse,
      cacheableByDefaultStatus, wantsConditional, revalidationValidator,
      keepConfig, etagResponse, etag304Response, lastModifiedResponse,
      lastModified304Response]

end HttpCache

namespace HttpCache

/-- A 500 backend response with no Cache-Control, as in
TestNoCachingOf500ErrorOnFirstRequest. -/
def error500Response (x : String) : BackendResponse :=
  { status := 500, xResponse := x }

/-- C7: a backend 500 with no Cache-Control and no prior cached object is
never cached as a servable object: the client receives the 500, only a
HitForMiss marker is recorded, and every repeated request against that
marker triggers its own new synchronous backend fetch; and a prior 200
object still within its grace period is not broken by a subsequent
background 500 unless policy explicitly adopts it: when the
backend-response hook abandons the background result, the result is
discarded entirely, the cached object remains authoritative and unaffected,
and no eviction or overwrite occurs. -/
theorem c7_error_500_not_cached_and_abandon_preserves_grace
    (x : String) :
    handleRequest none getReq 0 (error500Response x) {} none none
        (ttlConfig 1000) =
      ({ status := 500, xResponse := x, body := "" },
       some (mkMarker (error500Response x) 0),
       FetchAction.syncFetch) ∧
    (∀ (t : Nat) (r2 : BackendResponse),
      (handleRequest (some (mkMarker (error500Response x) 0)) getReq t r2
        {} none none (ttlConfig 1000)).2.2 = FetchAction.syncFetch) ∧
    (∀ (s : Option CacheObject) (conditional : Bool) (r2 : BackendResponse)
       (hook : HookOverrides) (gc tc : Option Nat) (cfg : Config)
       (now : Nat),
      processBackgroundResponse s BackendHookDecision.abandon conditional
        r2 hook gc tc cfg now = s) := by
  refine ⟨?_, ?_, fun _ _ _ _ _ _ _ _ => rfl⟩
  · simp [handleRequest, forcedPass, getReq, lookup, processSyncResponse,
      computeFreshness, headerTtl, headerGrace, presentGrace, hasDir, dirVal,
      storeResult, mkObject, mkMarker, objResponse, backendClientResponse,
      cacheableByDefaultStatus, error500Response, ttlConfig]
  · intro t r2
    by_cases h : t < 120000 <;>
      simp [handleRequest, forcedPass, getReq, lookup, processSyncResponse,
        computeFreshness, headerTtl, headerGrace, presentGrace, hasDir,
        dirVal, storeResult, mkObject, mkMarker, markerTtl, objResponse,
        backendClientResponse, cacheableByDefaultStatus, error500Response,
        ttlConfig, h]

end HttpCache

namespace HttpCache

/-- A 200 backend response carrying Cache-Control no-store, as in
TestHitForMissAndNoRequestCoalescingWhenNoStore. -/
def noStoreResponse (x : String) : BackendResponse :=
  { status := 200, cacheControl := [Directive.mk "no-store" none],
    xResponse := x }

/-- C8: in the n-parallel-requests scenario against a backend of latency L
whose responses carry Cache-Control no-store, the first request publishes a
HitForMiss marker after one latency and every other request, once it
re-probes against the marker, performs its own independent backend fetch
(no coalescing): every request reports an own fetch, so n backend fetches
happen in total, the first completes at L and all others complete at 2 * L,
and the whole scenario takes about twice the backend latency, strictly less
than the n * L a serialized execution would take. -/
theorem c8_hit_for_miss_marker_never_coalesces
    (n L : Nat) (x : String) (hn : 3 ≤ n) (hL : 0 < L) :
    noStoreParallelOutcomes n L (noStoreResponse x) {} =
      (L, true) :: List.replicate (n - 1) (2 * L, true) ∧
    (noStoreParallelOutcomes n L (noStoreResponse x) {}).length = n ∧
    2 * L < n * L := by
  obtain ⟨k, rfl⟩ : ∃ k, n = k + 1 := ⟨n - 1, by omega⟩
  have hmain : noStoreParallelOutcomes (k + 1) L (noStoreResponse x) {} =
      (L, true) :: List.replicate k (2 * L, true) := by
    simp [noStoreParallelOutcomes, requesterOutcome, coalesce, lookup,
      storeResult, computeFreshness, headerTtl, headerGrace, presentGrace,
      hasDir, dirVal, mkMarker, markerTtl, cacheableByDefaultStatus,
      noStoreResponse, Nat.two_mul]
  refine ⟨hmain, ?_, ?_⟩
  · rw [hmain]
    simp
  · have h2 : 2 < k + 1 := by omega
    calc 2 * L < (k + 1) * L := by
          exact Nat.mul_lt_mul_of_lt_of_le h2 (Nat.le_refl L) hL

/-- Witness for C8 at the concrete inputs of the test: 10 parallel requests
against a backend of 1000 ms latency. -/
theorem c8_hit_for_miss_marker_never_coalesces_witness :
    noStoreParallelOutcomes 10 1000 (noStoreResponse "0") {} =
      (1000, true) :: List.replicate 9 (2000, true) ∧
    (noStoreParallelOutcomes 10 1000 (noStoreResponse "0") {}).length =
      10 ∧
    2 * 1000 < 10 * 1000 := by
  have h := c8_hit_for_miss_marker_never_coalesces 10 1000 "0"
    (by decide) (by decide)
  simpa using h

end HttpCache

namespace HttpCache

/-- C9: a 304 received for a backend fetch that was sent without a
validator is a protocol violation treated as a Backend Fetch Error: for any
unconditional fetch the processed result is the synthetic default 503 with
the empty body and nothing is cached, and in particular the first client
request against an empty store whose backend answers 304 receives the
synthetic 503; whereas any actually received status that is not such an
illegal 304, including 5xx such as 503, is a normal response delivered to
the client as received. -/
theorem c9_unconditional_304_is_backend_error_received_5xx_is_not
    (x : String) (r304 r : BackendResponse) (cfg : Config)
    (h304 : r304.status = 304) (hr : r.status ≠ 304) :
    (∀ (s : Option CacheObject) (hook : HookOverrides) (gc tc : Option Nat)
       (cfg2 : Config) (now : Nat),
      processSyncResponse s false r304 hook gc tc cfg2 now =
        (syntheticBackendError, s)) ∧
    handleRequest none getReq 0
        { status := 304, xResponse := x } {} none none cfg =
      (syntheticBackendError, none, FetchAction.syncFetch) ∧
    (handleRequest none getReq 0 r {} none none cfg).1 =
      backendClientResponse r := by
  refine ⟨?_, ?_, ?_⟩
  · intro s hook gc tc cfg2 now
    simp [processSyncResponse, h304]
  · simp [handleRequest, forcedPass, getReq, lookup, processSyncResponse]
  · simp [handleRequest, forcedPass, getReq, lookup, processSyncResponse,
      backendClientResponse, hr]

/-- Witness for C9 at the concrete inputs of the tests: the backend of
TestBackendRespondsWith304WhenUnconditionalRequest answering a bare 304,
and the 503 backend of Test503FromBackendIsNotVclBackendError. -/
theorem c9_unconditional_304_is_backend_error_received_5xx_is_not_witness :
    (∀ (s : Option CacheObject) (hook : HookOverrides) (gc tc : Option Nat)
       (cfg2 : Config) (now : Nat),
      processSyncResponse s false { status := 304, xResponse := "foo" }
          hook gc tc cfg2 now =
        (syntheticBackendError, s)) ∧
    handleRequest none getReq 0
        { status := 304, xResponse := "foo" } {} none none
        (ttlConfig 1000) =
      (syntheticBackendError, none, FetchAction.syncFetch) ∧
    (handleRequest none getReq 0 { status := 503, xResponse := "foo" } {}
        none none (ttlConfig 1000)).1 =
      backendClientResponse { status := 503, xResponse := "foo" } :=
  c9_unconditional_304_is_backend_error_received_5xx_is_not "foo"
    { status := 304, xResponse := "foo" } { status := 503, xResponse := "foo" }
    (ttlConfig 1000) (by decide) (by decide)

end HttpCache

namespace HttpCache

/-- C10: for a fresh cached object, a client GET request carrying any
Cache-Control directives (in particular max-age=0, no-cache) is still
served from the cache with no backend fetch: the engine never consults the
request's cache directives, so they can neither force a revalidation nor
bypass the cache. -/
theorem c10_request_cache_directives_are_ignored
    (rcc : CacheControl) (o : CacheObject) (t : Nat)
    (r : BackendResponse) (hook : HookOverrides) (gc tc : Option Nat)
    (cfg : Config) (hmark : o.hitForMiss = false)
    (hfresh : t - o.insertedAt < o.ttl) :
    handleRequest (some o)
        { method := "GET", cacheControl := rcc } t r hook gc tc cfg =
      (objResponse o, some o, FetchAction.noFetch) := by
  simp [handleRequest, forcedPass, lookup, objResponse, hmark, hfresh]

/-- Witness for C10 at the concrete inputs of TestMaxAge0AndNoCacheInRequest:
the fresh object of the first request probed at 100 ms with request
Cache-Control max-age=0, no-cache. -/
theorem c10_request_cache_directives_are_ignored_witness :
    handleRequest
        (some { status := 200, xResponse := "foo", body := "",
                insertedAt := 0, ttl := 1000, grace := 0, keep := 0 })
        { method := "GET",
          cacheControl := [Directive.mk "max-age" (some 0),
            Directive.mk "no-cache" none] } 100 (plainResponse "bar") {}
        none none (ttlConfig 1000) =
      (objResponse { status := 200, xResponse := "foo", body := "",
                     insertedAt := 0, ttl := 1000, grace := 0, keep := 0 },
       some { status := 200, xResponse := "foo", body := "",
              insertedAt := 0, ttl := 1000, grace := 0, keep := 0 },
       FetchAction.noFetch) :=
  c10_request_cache_directives_are_ignored
    [Directive.mk "max-age" (some 0), Directive.mk "no-cache" none]
    { status := 200, xResponse := "foo", body := "", insertedAt := 0,
      ttl := 1000, grace := 0, keep := 0 } 100 (plainResponse "bar") {}
    none none (ttlConfig 1000) (by decide) (by decide)

end HttpCache
